import Mathlib

/-!
Verification development for the Kaydi-Ecommerce backend.

The user controller (`src/server/controllers/userController.js`) is embedded
directly from its source.  The order and review controllers are not part of
the provided sources (only their test suites are), so their handlers are
modelled from the specification (`spec.md`, sections 4.1, 4.2, 4.6, 4.7),
with response messages taken from the specification and the in-repo test
expectations.

Handlers are modelled as pure functions from the request data and a list of
database documents to an HTTP-style result paired with the database after
the request.  JavaScript numbers are modelled as `Int` (quantities, prices,
stock), document ids as `Nat`, and `req.user` as an optional `Requester`.
-/

/-- An HTTP-style handler outcome: either a success payload or an error
carrying a status code and a `message` string. -/
inductive HResult (α : Type) where
  | ok : α → HResult α
  | err : Nat → String → HResult α
  deriving Repr, DecidableEq

/-- `HResult.isOk r` holds exactly on successful results. -/
def HResult.isOk {α : Type} : HResult α → Prop
  | .ok _ => True
  | .err _ _ => False

instance {α : Type} (r : HResult α) : Decidable r.isOk := by
  cases r <;> simp [HResult.isOk] <;> infer_instance

/-- The authenticated requester (`req.user`): an id and an admin flag. -/
structure Requester where
  id : Nat
  isAdmin : Bool
  deriving Repr, DecidableEq

/-! ## User model (from `src/server/controllers/userController.js`) -/

/-- A stored user document (the fields `userController.js` reads and
writes, including the password hash). -/
structure UserDoc where
  id : Nat
  username : String
  email : String
  password : String
  isAdmin : Bool
  phoneNumber : String
  gender : String
  dateOfBirth : String
  addressList : List String
  profilePic : String
  createdAt : Nat
  deriving Repr, DecidableEq

/-- A user document as returned to clients: every `UserDoc` field except
`password` (the `const { password, ...rest } = user._doc` destructuring
and the `.select("-password")` projection). -/
structure UserView where
  id : Nat
  username : String
  email : String
  isAdmin : Bool
  phoneNumber : String
  gender : String
  dateOfBirth : String
  addressList : List String
  profilePic : String
  createdAt : Nat
  deriving Repr, DecidableEq

/-- Drop the `password` field of a user document. -/
def toView (u : UserDoc) : UserView :=
  { id := u.id, username := u.username, email := u.email, isAdmin := u.isAdmin
    phoneNumber := u.phoneNumber, gender := u.gender, dateOfBirth := u.dateOfBirth
    addressList := u.addressList, profilePic := u.profilePic, createdAt := u.createdAt }

/-- JavaScript `parseInt(q) || d`: an absent or non-numeric parameter
(`none`, i.e. `NaN`) and the falsy value `0` both fall back to the
default; every other integer, negative ones included, passes through. -/
def jsOrInt (q : Option Int) (d : Int) : Int :=
  match q with
  | none => d
  | some v => if v = 0 then d else v

/-- `const page = parseInt(req.query.page) || 1` (userController.js line 14). -/
def getAllUsersPage (pageQ : Option Int) : Int := jsOrInt pageQ 1

/-- `const limit = parseInt(req.query.limit) || 10` (userController.js line 15). -/
def getAllUsersLimit (limitQ : Option Int) : Int := jsOrInt limitQ 10

/-- JavaScript `Math.ceil(c / l)` on integers, as used for `totalPages`. -/
def jsCeilDiv (c l : Int) : Int := -((-c).fdiv l)

/-- The 200-response body of `getAllUsers`. -/
structure GetAllUsersRes where
  userCount : Nat
  lastWeekUsersCount : Nat
  lastMonthUsersCount : Nat
  currentPage : Int
  totalPages : Int
  users : List UserView
  deriving Repr, DecidableEq

/-- `getAllUsers` (userController.js lines 7-64).  `oneWeekAgo` and
`oneMonthAgo` are the cutoff timestamps the handler computes from the
clock; the database slice `skip`/`limit` is modelled by `drop`/`take`
(the handler is only exercised with non-negative skips here). -/
def getAllUsers (r : Requester) (pageQ limitQ : Option Int)
    (oneWeekAgo oneMonthAgo : Nat) (db : List UserDoc) : HResult GetAllUsersRes :=
  if r.isAdmin = false then .err 401 "You dont have permission to do this action"
  else
    let page := getAllUsersPage pageQ
    let limit := getAllUsersLimit limitQ
    let skip := (page - 1) * limit
    let allUsers := (db.drop skip.toNat).take limit.toNat
    let users := allUsers.map toView
    if allUsers = [] then .err 404 "No users were found"
    else .ok
      { userCount := db.length
        lastWeekUsersCount := (db.filter (fun u => oneWeekAgo ≤ u.createdAt)).length
        lastMonthUsersCount := (db.filter (fun u => oneMonthAgo ≤ u.createdAt)).length
        currentPage := page
        totalPages := jsCeilDiv db.length limit
        users := users }

/-- `getUser` (userController.js lines 105-113): look the user up by id,
404 when absent, otherwise return the document without its password. -/
def getUser (userId : Nat) (db : List UserDoc) : HResult UserView :=
  match db.find? (fun u => u.id == userId) with
  | none => .err 404 "User not found"
  | some u => .ok (toView u)

/-- Case-insensitive substring test, modelling the `$regex`/`$options: "i"`
match of `searchUser`. -/
def isSubstrI (pat hay : String) : Bool :=
  go pat.toLower.toList hay.toLower.toList
where
  /-- `go p h` is true when `p` occurs contiguously inside `h`. -/
  go (p : List Char) : List Char → Bool
    | [] => p.isEmpty
    | c :: rest => p.isPrefixOf (c :: rest) || go p rest

/-- `searchUser` (userController.js lines 231-255): filter by the optional
`search` keyword on username or email (case-insensitive), always exclude
the requester, drop the password.  An empty result is answered with
`res.json({message})`, i.e. status 200 and a `message` body. -/
def searchUser (r : Requester) (searchQ : Option String) (db : List UserDoc) :
    HResult (List UserView) :=
  let pred : UserDoc → Bool := fun u =>
    (match searchQ with
     | none => true
     | some s => isSubstrI s u.username || isSubstrI s u.email) && !(u.id == r.id)
  let found := db.filter pred
  if found = [] then .err 200 "User not found"
  else .ok (found.map toView)

/-- The `$set` body of `updateUser`: every field is optional; an absent
field leaves the stored value unchanged (Mongoose drops `undefined`). -/
structure UpdateBody where
  username : Option String
  email : Option String
  password : Option String
  gender : Option String
  phoneNumber : Option String
  dateOfBirth : Option String
  addressList : Option (List String)
  profilePic : Option String
  deriving Repr, DecidableEq

/-- The bcrypt hash of `updateUser`, modelled as an injective tagging of
the plaintext (its only property the controller relies on). -/
def hashPw (s : String) : String := "bcrypt$" ++ s

/-- Apply an `UpdateBody` to a stored user (the `findByIdAndUpdate`
`$set`): provided fields replace the stored ones, the password is
hashed first. -/
def applyUpdate (b : UpdateBody) (u : UserDoc) : UserDoc :=
  { u with
    username := b.username.getD u.username
    email := b.email.getD u.email
    password := (b.password.map hashPw).getD u.password
    gender := b.gender.getD u.gender
    phoneNumber := b.phoneNumber.getD u.phoneNumber
    dateOfBirth := b.dateOfBirth.getD u.dateOfBirth
    addressList := b.addressList.getD u.addressList
    profilePic := b.profilePic.getD u.profilePic }

/-- `updateUser` (userController.js lines 115-156).  The requester must be
the target user itself; the handler never consults `isAdmin`.  On a
missing target the handler dereferences `updatedUser._doc` on `null`,
which the error middleware reports as a 500. -/
def updateUser (r : Requester) (userId : Nat) (body : UpdateBody)
    (db : List UserDoc) : HResult UserView × List UserDoc :=
  if r.id ≠ userId then
    (.err 401 "You don\x27t have permission to do this action", db)
  else if (match body.password with
           | some p => decide (p.length < 6)
           | none => false) then
    (.err 400 "Password must be at least 6 characters long", db)
  else
    match db.find? (fun u => u.id == userId) with
    | none => (.err 500 "Cannot read properties of null", db)
    | some u =>
      (.ok (toView (applyUpdate body u)),
       db.map (fun x => if x.id == userId then applyUpdate body x else x))

/-- `deleteUser` (userController.js lines 158-171).  The requester must be
the target user itself (no admin override); `findByIdAndDelete` succeeds
silently whether or not the id exists, and the handler answers 200
unconditionally afterwards. -/
def deleteUser (r : Requester) (userId : Nat) (db : List UserDoc) :
    HResult String × List UserDoc :=
  if r.id ≠ userId then
    (.err 401 "You dont have permission to do this action", db)
  else
    (.ok "User deleted successfully", db.filter (fun u => !(u.id == userId)))

/-! ## Order model

Modelled from the spec: the order controller
(`server/controllers/orderController.js`) is not among the provided
sources; only its test suite is.  `createOrder` follows the fail-fast
validation sequence of spec section 4.1 (steps 1-12, first violation
wins) and `cancelOrder` follows section 4.2; response messages are the
ones the repository's tests assert. -/

/-- A product document: id, name, unit price, stock count (spec section 3). -/
structure Product where
  id : Nat
  name : String
  price : Int
  stock : Int
  deriving Repr, DecidableEq

/-- A line item of an order-creation request. -/
structure OrderItem where
  productId : Nat
  name : String
  quantity : Int
  price : Int
  deriving Repr, DecidableEq

/-- The body of a `POST /orders` request. -/
structure CreateOrderReq where
  userId : Nat
  receiverName : String
  receiverPhone : String
  receiverNote : String
  products : List OrderItem
  totalAmount : Int
  shippingAddress : String
  paymentMethod : String
  deriving Repr, DecidableEq

/-- A persisted order document as `createOrder` writes it. -/
structure OrderDoc where
  userId : Nat
  receiverName : String
  receiverPhone : String
  receiverNote : String
  products : List OrderItem
  totalAmount : Int
  shippingAddress : String
  paymentMethod : String
  status : String
  deriving Repr, DecidableEq

/-- Look a product up by id (`Product.findById`). -/
def findProduct (db : List Product) (pid : Nat) : Option Product :=
  db.find? (fun p => p.id == pid)

/-- Modelled from the spec: step 10 of section 4.1, "every item quantity
must be at most the available stock" for the product the item references. -/
def stockOk (db : List Product) (it : OrderItem) : Bool :=
  match findProduct db it.productId with
  | some p => decide (it.quantity ≤ p.stock)
  | none => false

/-- The sum over the line items of `price * quantity` (spec section 4.1,
step 11). -/
def orderTotal (items : List OrderItem) : Int :=
  (items.map (fun it => it.price * it.quantity)).sum

/-- Modelled from the spec: "decrement each product's stock by its ordered
quantity" — a product referenced by a line item loses that item's
quantity, every other product is untouched. -/
def decOne (items : List OrderItem) (p : Product) : Product :=
  match items.find? (fun it => it.productId == p.id) with
  | some it => { p with stock := p.stock - it.quantity }
  | none => p

/-- Apply the stock decrement of a successful order to the whole catalog. -/
def decStocks (db : List Product) (items : List OrderItem) : List Product :=
  db.map (decOne items)

/-- The order document a successful `createOrder` persists: the request
data snapshot with `status := "pending"` (spec section 4.1). -/
def mkOrder (req : CreateOrderReq) : OrderDoc :=
  { userId := req.userId, receiverName := req.receiverName
    receiverPhone := req.receiverPhone, receiverNote := req.receiverNote
    products := req.products, totalAmount := req.totalAmount
    shippingAddress := req.shippingAddress, paymentMethod := req.paymentMethod
    status := "pending" }

/-- Modelled from the spec: `createOrder` (spec section 4.1), the
fail-fast validation sequence 1-12 followed by the stock decrement and
the order insert.  The pair is (response, product catalog after the
request); an error leaves the catalog untouched. -/
def createOrder (r : Option Requester) (req : CreateOrderReq)
    (db : List Product) : HResult OrderDoc × List Product :=
  match r with
  | none => (.err 401 "You are not logged in", db)
  | some u =>
    if u.id ≠ req.userId then
      (.err 403 "You cannot create an order for another user", db)
    else if req.receiverName = "" then
      (.err 400 "Receiver name is required", db)
    else if req.shippingAddress = "" then
      (.err 400 "Shipping address is required", db)
    else if req.shippingAddress.length < 10 then
      (.err 400 "Shipping address is too short (min 10 characters)", db)
    else if 500 < req.receiverNote.length then
      (.err 400 "Receiver note is too long (max 500 characters)", db)
    else if req.receiverPhone.length ≠ 10 then
      (.err 400 "Invalid phone number length", db)
    else if ¬ req.receiverPhone.toList.all Char.isDigit then
      (.err 400 "Phone number contains digital numbers only", db)
    else if req.products = [] then
      (.err 400 "Products array cannot be empty", db)
    else if ¬ req.products.all (fun it => decide (0 < it.quantity)) then
      (.err 400 "Product quantity must be positive", db)
    else if ¬ req.products.all (fun it => (findProduct db it.productId).isSome) then
      (.err 404 "Product not found", db)
    else if ¬ req.products.all (stockOk db) then
      (.err 400 "Not enough stock", db)
    else if req.totalAmount ≠ orderTotal req.products then
      (.err 400 "Total amount does not match product prices", db)
    else if req.paymentMethod ≠ "COD" then
      (.err 400 "Other function are not supported", db)
    else
      (.ok (mkOrder req), decStocks db req.products)

/-- Validation steps 1-9 of spec section 4.1 all pass for requester `u`:
the request is for the requester's own account, with well-formed receiver
fields, a non-empty list of positive-quantity items, and every referenced
product exists.  These are exactly the checks that precede the stock
check. -/
def passesPreStock (u : Requester) (req : CreateOrderReq)
    (db : List Product) : Prop :=
  u.id = req.userId ∧ req.receiverName ≠ "" ∧ req.shippingAddress ≠ "" ∧
  ¬ req.shippingAddress.length < 10 ∧ ¬ 500 < req.receiverNote.length ∧
  req.receiverPhone.length = 10 ∧ req.receiverPhone.toList.all Char.isDigit ∧
  req.products ≠ [] ∧ req.products.all (fun it => decide (0 < it.quantity)) ∧
  req.products.all (fun it => (findProduct db it.productId).isSome)

/-- Validation steps 1-10 of spec section 4.1 all pass: `passesPreStock`
together with the stock check — exactly the checks that precede the
total-amount comparison. -/
def passesPreTotal (u : Requester) (req : CreateOrderReq)
    (db : List Product) : Prop :=
  passesPreStock u req db ∧ req.products.all (stockOk db)

/-- A stored order as far as cancellation is concerned (spec section 4.2). -/
structure OrderRec where
  id : Nat
  userId : Nat
  status : String
  deriving Repr, DecidableEq

/-- Modelled from the spec: `cancelOrder` (spec section 4.2).  The order
must exist (else 404), the requester must own it and match the `userId`
path parameter (else 403), and it must still be `pending` (else 400);
on success the order record is deleted. -/
def cancelOrder (r : Requester) (userIdParam orderIdParam : Nat)
    (orders : List OrderRec) : HResult String × List OrderRec :=
  match orders.find? (fun o => o.id == orderIdParam) with
  | none => (.err 404 "Order not found", orders)
  | some o =>
    if r.id ≠ userIdParam ∨ o.userId ≠ userIdParam then
      (.err 403 "You are not authorized to cancel this order", orders)
    else if o.status ≠ "pending" then
      (.err 400 "Order is in processing, can not be cancel!", orders)
    else
      (.ok "Order canceled successfully",
       orders.filter (fun x => !(x.id == orderIdParam)))

/-! ## Review model

Modelled from the spec: the review controller
(`server/controllers/reviewController.js`) is not among the provided
sources; only its test suite is.  `createReview`, `editReview` and
`replyReview` follow spec sections 4.6 and 4.7; response messages are the
ones the repository's tests assert. -/

/-- An uploaded review image, abstracted to its file extension and its
payload size in bytes (the two properties section 4.6 validates). -/
structure Img where
  ext : String
  size : Nat
  deriving Repr, DecidableEq

/-- The allowed image extension set of spec section 4.6. -/
def allowedExt (e : String) : Bool :=
  e == "jpg" || e == "jpeg" || e == "png" || e == "webp"

/-- The 20MB image size bound of spec section 4.6, in bytes. -/
def maxImageBytes : Nat := 20 * 1024 * 1024

/-- An admin reply attached to a review. -/
structure Reply where
  text : String
  deriving Repr, DecidableEq

/-- A stored review document (spec section 3).  Document ids are assigned
by the database; reviews minted by `createReview` carry id 0 here since
no modelled claim depends on the generated id. -/
structure ReviewDoc where
  id : Nat
  creator : Nat
  product : Nat
  order : Nat
  rating : Int
  comment : String
  image : List Img
  reply : List Reply
  createdAt : Nat
  deriving Repr, DecidableEq

/-- The body of a `POST /reviews/:userId` request. -/
structure CreateReviewReq where
  productIds : Option (List Nat)
  order : Option Nat
  rating : Option Int
  comment : String
  image : List Img
  deriving Repr, DecidableEq

/-- The review document `createReview` persists for one product id of the
fan-out (spec section 4.6). -/
def mkReview (creator pid orderId : Nat) (rating : Int) (comment : String)
    (image : List Img) (now : Nat) : ReviewDoc :=
  { id := 0, creator := creator, product := pid, order := orderId
    rating := rating, comment := comment, image := image, reply := []
    createdAt := now }

/-- Modelled from the spec: `createReview` (spec section 4.6).  The
requester must be the target user; product ids, order and rating are
required; rating is 1-5; the comment is bounded by 2000 characters;
images must have an allowed extension and be under 20MB; the creator
must not already have a review for any target product.  On success one
review per product id is created, all referencing the same order. -/
def createReview (r : Requester) (userIdParam : Nat) (req : CreateReviewReq)
    (now : Nat) (db : List ReviewDoc) : HResult (List ReviewDoc) × List ReviewDoc :=
  if r.id ≠ userIdParam then
    (.err 401 "You are not allowed to create review", db)
  else
    match req.productIds with
    | none => (.err 400 "Product IDs are required", db)
    | some pids =>
      if pids = [] then
        (.err 400 "At least one product ID is required", db)
      else
        match req.order with
        | none => (.err 400 "Order ID is required", db)
        | some orderId =>
          match req.rating with
          | none => (.err 400 "Rating is required", db)
          | some rating =>
            if rating < 1 ∨ 5 < rating then
              (.err 400 "Rating must be between 1 and 5", db)
            else if 2000 < req.comment.length then
              (.err 400 "Comment exceeds maximum length", db)
            else if ¬ req.image.all (fun im => allowedExt im.ext) then
              (.err 400 "Each image must be a valid file with .jpg, .jpeg, .png, or .webp extension", db)
            else if ¬ req.image.all (fun im => decide (im.size < maxImageBytes)) then
              (.err 400 "Each image must be a valid image with size < 20MB", db)
            else if pids.any (fun pid =>
                db.any (fun rev => rev.creator == r.id && rev.product == pid)) then
              (.err 400 "You have already reviewed this product", db)
            else
              let created := pids.map (fun pid =>
                mkReview r.id pid orderId rating req.comment req.image now)
              (.ok created, db ++ created)

/-- The body of a `PUT /reviews/:reviewId` request: partial update of the
rating and/or the comment (spec section 4.7). -/
structure EditReviewReq where
  rating : Option Int
  comment : Option String
  deriving Repr, DecidableEq

/-- A provided rating lies outside 1-5. -/
def ratingOutOfRange (q : Option Int) : Bool :=
  match q with
  | some v => decide (v < 1) || decide (5 < v)
  | none => false

/-- The fixed review edit window of spec section 4.7, in milliseconds
(48 hours, as the repository's test suite assumes). -/
def editWindowMs : Nat := 48 * 60 * 60 * 1000

/-- Modelled from the spec: `editReview` (spec section 4.7).  Edit is
permitted only to the owner or an admin, and only within the fixed
window from creation — the window applies to every requester, the test
suite exercising it with a requester that is both owner and admin.
Unspecified fields are retained. -/
def editReview (r : Requester) (reviewId : Nat) (req : EditReviewReq)
    (now : Nat) (db : List ReviewDoc) : HResult ReviewDoc × List ReviewDoc :=
  match db.find? (fun rev => rev.id == reviewId) with
  | none => (.err 404 "Review not found", db)
  | some rev =>
    if r.id ≠ rev.creator ∧ r.isAdmin = false then
      (.err 403 "You are not allowed to edit this review", db)
    else if rev.createdAt + editWindowMs < now then
      (.err 403 "You cannot edit reviews older than 48 hours", db)
    else if ratingOutOfRange req.rating then
      (.err 400 "Rating must be between 1 and 5", db)
    else
      let updated := { rev with rating := req.rating.getD rev.rating
                                comment := req.comment.getD rev.comment }
      (.ok updated, db.map (fun x => if x.id == reviewId then updated else x))

/-- Modelled from the spec: `replyReview` (spec section 4.7).  Restricted
to admins; the reply text is required and bounded; replying again
replaces the existing reply rather than appending, so the review always
holds a single current reply. -/
def replyReview (r : Requester) (reviewId : Nat) (text : Option String)
    (db : List ReviewDoc) : HResult ReviewDoc × List ReviewDoc :=
  if r.isAdmin = false then
    (.err 401 "You are not allowed to reply this review", db)
  else
    match db.find? (fun rev => rev.id == reviewId) with
    | none => (.err 404 "Review not found", db)
    | some rev =>
      match text with
      | none => (.err 400 "Reply text is required", db)
      | some t =>
        if 1000 < t.length then
          (.err 400 "Reply text exceeds maximum length", db)
        else
          let updated := { rev with reply := [{ text := t }] }
          (.ok updated, db.map (fun x => if x.id == reviewId then updated else x))

/-! ## Helper lemmas -/

/-- In a list whose keys are pairwise distinct, searching for the key of a
member finds exactly that member. -/
theorem find?_key_self {α : Type} (key : α → Nat) {l : List α} {a : α}
    (hnd : (l.map key).Nodup) (ha : a ∈ l) :
    l.find? (fun x => key x == key a) = some a := by
  induction l with
  | nil => cases ha
  | cons b l ih =>
    rcases List.mem_cons.mp ha with rfl | hmem
    · rw [List.find?_cons_of_pos _ (by simp)]
    · have hnd' : key b ∉ List.map key l ∧ (List.map key l).Nodup := by
        rw [List.map_cons, List.nodup_cons] at hnd
        exact hnd
      have hne : key b ≠ key a := by
        intro he
        exact hnd'.1 (he ▸ List.mem_map_of_mem key hmem)
      rw [List.find?_cons_of_neg _ (by simpa using hne)]
      exact ih hnd'.2 hmem

theorem decOne_id (items : List OrderItem) (p : Product) :
    (decOne items p).id = p.id := by
  unfold decOne
  split <;> rfl

/-- Looking a product up after the stock decrement finds the decremented
version of the product found before it. -/
theorem findProduct_decStocks (db : List Product) (items : List OrderItem)
    (pid : Nat) :
    findProduct (decStocks db items) pid = (findProduct db pid).map (decOne items) := by
  induction db with
  | nil => rfl
  | cons q l ih =>
    unfold findProduct decStocks at *
    simp only [List.map_cons, List.find?_cons]
    rw [decOne_id]
    cases hq : (q.id == pid) <;> simp [hq, ih]

/-- A `createOrder` request on which every validation step of spec
section 4.1 passes evaluates to the persisted pending order and the
decremented catalog.  The hypotheses are the negations of the thirteen
guard conditions, in source order. -/
theorem createOrder_valid_eq (u : Requester) (req : CreateOrderReq)
    (db : List Product)
    (h1 : ¬ u.id ≠ req.userId) (h2 : ¬ req.receiverName = "")
    (h3 : ¬ req.shippingAddress = "") (h4 : ¬ req.shippingAddress.length < 10)
    (h5 : ¬ 500 < req.receiverNote.length)
    (h6 : ¬ req.receiverPhone.length ≠ 10)
    (h7 : ¬ ¬ req.receiverPhone.toList.all Char.isDigit = true)
    (h8 : ¬ req.products = [])
    (h9 : ¬ ¬ (req.products.all fun it => decide (0 < it.quantity)) = true)
    (h10 : ¬ ¬ (req.products.all fun it => (findProduct db it.productId).isSome) = true)
    (h11 : ¬ ¬ req.products.all (stockOk db) = true)
    (h12 : ¬ req.totalAmount ≠ orderTotal req.products)
    (h13 : ¬ req.paymentMethod ≠ "COD") :
    createOrder (some u) req db
      = (HResult.ok (mkOrder req), decStocks db req.products) := by
  simp only [createOrder]
  rw [if_neg h1, if_neg h2, if_neg h3, if_neg h4, if_neg h5, if_neg h6,
    if_neg h7, if_neg h8, if_neg h9, if_neg h10, if_neg h11, if_neg h12,
    if_neg h13]

/-- Inversion of a successful `createOrder`: every validation step of
spec section 4.1 passed, the response is the persisted order, and the
catalog after the request is the decremented one. -/
theorem createOrder_ok_inv {r : Option Requester} {req : CreateOrderReq}
    {db : List Product} {o : OrderDoc}
    (h : (createOrder r req db).1 = HResult.ok o) :
    ∃ u, r = some u ∧ u.id = req.userId ∧
      req.products ≠ [] ∧
      req.products.all (fun it => decide (0 < it.quantity)) = true ∧
      req.products.all (fun it => (findProduct db it.productId).isSome) = true ∧
      req.products.all (stockOk db) = true ∧
      req.totalAmount = orderTotal req.products ∧
      req.paymentMethod = "COD" ∧
      o = mkOrder req ∧
      (createOrder r req db).2 = decStocks db req.products := by
  cases r with
  | none => exact HResult.noConfusion h
  | some u =>
    simp only [createOrder] at h
    by_cases h1 : u.id ≠ req.userId
    · rw [if_pos h1] at h; exact HResult.noConfusion h
    rw [if_neg h1] at h
    by_cases h2 : req.receiverName = ""
    · rw [if_pos h2] at h; exact HResult.noConfusion h
    rw [if_neg h2] at h
    by_cases h3 : req.shippingAddress = ""
    · rw [if_pos h3] at h; exact HResult.noConfusion h
    rw [if_neg h3] at h
    by_cases h4 : req.shippingAddress.length < 10
    · rw [if_pos h4] at h; exact HResult.noConfusion h
    rw [if_neg h4] at h
    by_cases h5 : 500 < req.receiverNote.length
    · rw [if_pos h5] at h; exact HResult.noConfusion h
    rw [if_neg h5] at h
    by_cases h6 : req.receiverPhone.length ≠ 10
    · rw [if_pos h6] at h; exact HResult.noConfusion h
    rw [if_neg h6] at h
    by_cases h7 : ¬ req.receiverPhone.toList.all Char.isDigit = true
    · rw [if_pos h7] at h; exact HResult.noConfusion h
    rw [if_neg h7] at h
    by_cases h8 : req.products = []
    · rw [if_pos h8] at h; exact HResult.noConfusion h
    rw [if_neg h8] at h
    by_cases h9 : ¬ (req.products.all fun it => decide (0 < it.quantity)) = true
    · rw [if_pos h9] at h; exact HResult.noConfusion h
    rw [if_neg h9] at h
    by_cases h10 : ¬ (req.products.all fun it => (findProduct db it.productId).isSome) = true
    · rw [if_pos h10] at h; exact HResult.noConfusion h
    rw [if_neg h10] at h
    by_cases h11 : ¬ req.products.all (stockOk db) = true
    · rw [if_pos h11] at h; exact HResult.noConfusion h
    rw [if_neg h11] at h
    by_cases h12 : req.totalAmount ≠ orderTotal req.products
    · rw [if_pos h12] at h; exact HResult.noConfusion h
    rw [if_neg h12] at h
    by_cases h13 : req.paymentMethod ≠ "COD"
    · rw [if_pos h13] at h; exact HResult.noConfusion h
    rw [if_neg h13] at h
    have ho : o = mkOrder req := (HResult.ok.inj h).symm
    refine ⟨u, rfl, not_not.mp h1, h8, not_not.mp h9, not_not.mp h10,
      not_not.mp h11, not_not.mp h12, not_not.mp h13, ho, ?_⟩
    rw [createOrder_valid_eq u req db h1 h2 h3 h4 h5 h6 h7 h8 h9 h10 h11 h12 h13]

/-- With validation steps 1-9 passing but the stock check failing,
`createOrder` answers 400 "Not enough stock" and leaves the catalog
untouched. -/
theorem createOrder_stock_err (u : Requester) (req : CreateOrderReq)
    (db : List Product) (hp : passesPreStock u req db)
    (hs : ¬ req.products.all (stockOk db) = true) :
    createOrder (some u) req db = (HResult.err 400 "Not enough stock", db) := by
  obtain ⟨e1, e2, e3, e4, e5, e6, e7, e8, e9, e10⟩ := hp
  simp only [createOrder]
  rw [if_neg (fun hc => hc e1), if_neg e2, if_neg e3, if_neg e4, if_neg e5,
    if_neg (fun hc => hc e6), if_neg (not_not_intro e7), if_neg e8,
    if_neg (not_not_intro e9), if_neg (not_not_intro e10), if_pos hs]

/-- With validation steps 1-10 passing but the declared total not matching
the line-item sum, `createOrder` answers the mismatch error and leaves
the catalog untouched. -/
theorem createOrder_total_err (u : Requester) (req : CreateOrderReq)
    (db : List Product) (hp : passesPreTotal u req db)
    (hm : req.totalAmount ≠ orderTotal req.products) :
    createOrder (some u) req db
      = (HResult.err 400 "Total amount does not match product prices", db) := by
  obtain ⟨⟨e1, e2, e3, e4, e5, e6, e7, e8, e9, e10⟩, e11⟩ := hp
  simp only [createOrder]
  rw [if_neg (fun hc => hc e1), if_neg e2, if_neg e3, if_neg e4, if_neg e5,
    if_neg (fun hc => hc e6), if_neg (not_not_intro e7), if_neg e8,
    if_neg (not_not_intro e9), if_neg (not_not_intro e10),
    if_neg (not_not_intro e11), if_pos hm]

/-- When no two line items reference the same product, the decremented
catalog holds, for each item, the referenced product with exactly that
item's quantity subtracted. -/
theorem decStocks_exact {db : List Product} {items : List OrderItem}
    (hnd : (items.map (fun it => it.productId)).Nodup)
    {it : OrderItem} (hit : it ∈ items) {p : Product}
    (hp : findProduct db it.productId = some p) :
    findProduct (decStocks db items) it.productId
      = some { p with stock := p.stock - it.quantity } := by
  rw [findProduct_decStocks, hp, Option.map_some']
  have hpid : p.id = it.productId := by
    have := List.find?_some hp
    simpa using this
  have hfind : items.find? (fun x => x.productId == it.productId) = some it :=
    find?_key_self (fun x => x.productId) hnd hit
  unfold decOne
  rw [hpid, hfind]

/-- Stock stays non-negative across the decrement of a stock-checked
order, provided catalog ids are unique (as database ids are). -/
theorem decStocks_nonneg {db : List Product} {items : List OrderItem}
    (hnd : (db.map (fun p => p.id)).Nodup)
    (hs : items.all (stockOk db) = true)
    (hdb : ∀ p ∈ db, 0 ≤ p.stock) :
    ∀ p ∈ decStocks db items, 0 ≤ p.stock := by
  intro p' hp'
  obtain ⟨p, hpmem, rfl⟩ := List.mem_map.mp hp'
  unfold decOne
  cases hfind : items.find? (fun x => x.productId == p.id) with
  | none => exact hdb p hpmem
  | some it =>
    have hitmem : it ∈ items := List.mem_of_find?_eq_some hfind
    have hpid : it.productId = p.id := by
      have := List.find?_some hfind
      simpa using this
    have hself : db.find? (fun x => x.id == p.id) = some p :=
      find?_key_self (fun x => x.id) hnd hpmem
    have hok : stockOk db it = true := List.all_eq_true.mp hs it hitmem
    unfold stockOk findProduct at hok
    rw [hpid, hself] at hok
    have hle : it.quantity ≤ p.stock := of_decide_eq_true hok
    have h0 : 0 ≤ p.stock := hdb p hpmem
    simp only []
    omega

instance (u : Requester) (req : CreateOrderReq) (db : List Product) :
    Decidable (passesPreStock u req db) := by
  unfold passesPreStock; infer_instance

instance (u : Requester) (req : CreateOrderReq) (db : List Product) :
    Decidable (passesPreTotal u req db) := by
  unfold passesPreTotal; infer_instance

/-! ## Concrete fixtures for the order-controller claims -/

/-- A catalog with one product, stock 10 (test #TC001's setup). -/
def okProduct : Product :=
  { id := 1, name := "Test Product", price := 100000, stock := 10 }

/-- The one-product catalog. -/
def okCatalog : List Product := [okProduct]

/-- The regular requester of the test suite. -/
def okRequester : Requester := { id := 7, isAdmin := false }

/-- A well-formed COD order request for 2 units (test #TC001's payload). -/
def okOrderReq : CreateOrderReq :=
  { userId := 7, receiverName := "Alice", receiverPhone := "0123456789"
    receiverNote := "Leave at door"
    products := [{ productId := 1, name := "Test Product", quantity := 2, price := 100000 }]
    totalAmount := 200000
    shippingAddress := "123 Main St, City, Country", paymentMethod := "COD" }

/-- A catalog with a single product of stock 1 (test #TC002's setup). -/
def lowStockCatalog : List Product :=
  [{ id := 1, name := "Limited Product", price := 50000, stock := 1 }]

/-- A request for 2 units of the stock-1 product (test #TC002's payload). -/
def lowStockReq : CreateOrderReq :=
  { userId := 7, receiverName := "Bob", receiverPhone := "0987654321"
    receiverNote := ""
    products := [{ productId := 1, name := "Limited Product", quantity := 2, price := 50000 }]
    totalAmount := 100000
    shippingAddress := "456 Market St, City, Country", paymentMethod := "COD" }

/-- The stock-exceeding request with an empty receiver name. -/
def cexNoNameReq : CreateOrderReq := { lowStockReq with receiverName := "" }

/-- The well-formed request with a wrong declared total (test #TC013). -/
def mismatchReq : CreateOrderReq := { okOrderReq with totalAmount := 150000 }

/-! ## Claim C1 -/

/-- Claim C1 (amended): for every successful order creation whose line
items reference pairwise distinct products, each referenced product's
stock is decremented by exactly that item's ordered quantity; for every
order-creation request that passes the earlier validation steps
(authentication, ownership, receiver fields, phone, non-empty list of
positive-quantity items, product existence) where some item's quantity
exceeds that product's available stock, the request fails with status
400 and message "Not enough stock" and no stock is changed; and no
product's stock ever becomes negative through order creation. -/
theorem claimC1_stock_decrement_and_guard :
    ∀ (r : Option Requester) (req : CreateOrderReq) (db : List Product),
      (∀ o, (createOrder r req db).1 = HResult.ok o →
        (req.products.map (fun it => it.productId)).Nodup →
        ∀ it ∈ req.products, ∀ p, findProduct db it.productId = some p →
          findProduct (createOrder r req db).2 it.productId
            = some { p with stock := p.stock - it.quantity })
      ∧ (∀ u, r = some u → passesPreStock u req db →
          ¬ req.products.all (stockOk db) = true →
          createOrder r req db = (HResult.err 400 "Not enough stock", db))
      ∧ ((db.map (fun p => p.id)).Nodup → (∀ p ∈ db, 0 ≤ p.stock) →
          ∀ o, (createOrder r req db).1 = HResult.ok o →
          ∀ p ∈ (createOrder r req db).2, 0 ≤ p.stock) := by
  intro r req db
  refine ⟨?_, ?_, ?_⟩
  · intro o h hnd it hit p hp
    obtain ⟨u, hr, _, _, _, _, _, _, _, _, h2⟩ := createOrder_ok_inv h
    rw [h2]
    exact decStocks_exact hnd hit hp
  · rintro u rfl hp hs
    exact createOrder_stock_err u req db hp hs
  · intro hnd hdb o h p hmem
    obtain ⟨u, _, _, _, _, _, hst, _, _, _, h2⟩ := createOrder_ok_inv h
    rw [h2] at hmem
    exact decStocks_nonneg hnd hst hdb p hmem

/-- Concrete witness for claim C1: the #TC001 scenario decrements the
stock from 10 to 8, the #TC002 scenario is rejected with "Not enough
stock" with the catalog untouched, and the decremented stock is
non-negative. -/
theorem claimC1_stock_decrement_and_guard_witness :
    findProduct (createOrder (some okRequester) okOrderReq okCatalog).2 1
      = some { id := 1, name := "Test Product", price := 100000, stock := 8 }
    ∧ createOrder (some okRequester) lowStockReq lowStockCatalog
      = (HResult.err 400 "Not enough stock", lowStockCatalog)
    ∧ 0 ≤ ({ id := 1, name := "Test Product", price := 100000, stock := 8 } : Product).stock := by
  refine ⟨?_, ?_, ?_⟩
  · exact (claimC1_stock_decrement_and_guard (some okRequester) okOrderReq okCatalog).1
      (mkOrder okOrderReq) (by decide) (by decide)
      { productId := 1, name := "Test Product", quantity := 2, price := 100000 }
      (by decide) okProduct (by decide)
  · exact (claimC1_stock_decrement_and_guard (some okRequester) lowStockReq lowStockCatalog).2.1
      okRequester rfl (by decide) (by decide)
  · exact (claimC1_stock_decrement_and_guard (some okRequester) okOrderReq okCatalog).2.2
      (by decide) (by decide) (mkOrder okOrderReq) (by decide)
      { id := 1, name := "Test Product", price := 100000, stock := 8 } (by decide)

/-- Counterexample to claim C1 as stated: a request whose only item asks
for 2 units of a product with stock 1 — so its quantity exceeds the
available stock — but whose receiver name is empty is rejected fail-fast
with 400 "Receiver name is required", not with "Not enough stock". -/
theorem claimC1_counterexample :
    (∃ it ∈ cexNoNameReq.products, ∃ p,
      findProduct lowStockCatalog it.productId = some p ∧ p.stock < it.quantity)
    ∧ createOrder (some okRequester) cexNoNameReq lowStockCatalog
        = (HResult.err 400 "Receiver name is required", lowStockCatalog)
    ∧ "Receiver name is required" ≠ "Not enough stock" := by
  refine ⟨⟨{ productId := 1, name := "Limited Product", quantity := 2, price := 50000 },
    by decide, { id := 1, name := "Limited Product", price := 50000, stock := 1 },
    by decide, by decide⟩, by decide, by decide⟩

/-! ## Claim C2 -/

/-- Claim C2: for every order-creation request that passes the earlier
validations, a declared `totalAmount` different from the sum over the
line items of price times quantity is rejected with 400 "Total amount
does not match product prices", and every persisted order's
`totalAmount` equals that sum. -/
theorem claimC2_totalAmount :
    ∀ (r : Option Requester) (req : CreateOrderReq) (db : List Product),
      (∀ u, r = some u → passesPreTotal u req db →
        req.totalAmount ≠ orderTotal req.products →
        createOrder r req db
          = (HResult.err 400 "Total amount does not match product prices", db))
      ∧ (∀ o, (createOrder r req db).1 = HResult.ok o →
          o.totalAmount = orderTotal req.products) := by
  intro r req db
  constructor
  · rintro u rfl hp hm
    exact createOrder_total_err u req db hp hm
  · intro o h
    obtain ⟨u, _, _, _, _, _, _, htot, _, ho, _⟩ := createOrder_ok_inv h
    rw [ho]
    exact htot

/-- Concrete witness for claim C2: the #TC013 scenario (declared total
150000 against a 200000 line-item sum) is rejected with the mismatch
message, and the #TC001 persisted order's total equals the sum. -/
theorem claimC2_totalAmount_witness :
    createOrder (some okRequester) mismatchReq okCatalog
      = (HResult.err 400 "Total amount does not match product prices", okCatalog)
    ∧ (mkOrder okOrderReq).totalAmount = orderTotal okOrderReq.products := by
  constructor
  · exact (claimC2_totalAmount (some okRequester) mismatchReq okCatalog).1
      okRequester rfl (by decide) (by decide)
  · exact (claimC2_totalAmount (some okRequester) okOrderReq okCatalog).2
      (mkOrder okOrderReq) (by decide)

/-! ## Claim C4 -/

/-- Claim C4: for every cancel-order request on an existing order owned
by the requester (the path `userId` matching both), a pending order is
deleted with success returned, and an order in any other status is
rejected with status 400 and the orders collection left unchanged. -/
theorem claimC4_cancel_pending_only :
    ∀ (r : Requester) (uid oid : Nat) (orders : List OrderRec) (o : OrderRec),
      orders.find? (fun x => x.id == oid) = some o →
      r.id = uid → o.userId = uid →
      ((o.status = "pending" →
        (cancelOrder r uid oid orders).1 = HResult.ok "Order canceled successfully"
        ∧ ((cancelOrder r uid oid orders).2).find? (fun x => x.id == oid) = none)
      ∧ (o.status ≠ "pending" →
        cancelOrder r uid oid orders
          = (HResult.err 400 "Order is in processing, can not be cancel!", orders))) := by
  intro r uid oid orders o hfind hr ho
  have hauth : ¬ (r.id ≠ uid ∨ o.userId ≠ uid) := by
    push_neg
    exact ⟨hr, ho⟩
  constructor
  · intro hpend
    simp only [cancelOrder, hfind]
    rw [if_neg hauth, if_neg (fun hc => hc hpend)]
    refine ⟨rfl, ?_⟩
    rw [List.find?_eq_none]
    intro x hx
    have hxf := (List.mem_filter.mp hx).2
    simpa using hxf
  · intro hnp
    simp only [cancelOrder, hfind]
    rw [if_neg hauth, if_pos hnp]

/-- Concrete witness for claim C4: a pending order (test #TC014) is
cancelled and gone, a processing order (test #TC016) is rejected with
400 and kept. -/
theorem claimC4_cancel_pending_only_witness :
    ((cancelOrder { id := 7, isAdmin := false } 7 1 [{ id := 1, userId := 7, status := "pending" }]).1
      = HResult.ok "Order canceled successfully"
    ∧ ((cancelOrder { id := 7, isAdmin := false } 7 1 [{ id := 1, userId := 7, status := "pending" }]).2).find?
        (fun x => x.id == 1) = none)
    ∧ cancelOrder { id := 7, isAdmin := false } 7 1 [{ id := 1, userId := 7, status := "processing" }]
      = (HResult.err 400 "Order is in processing, can not be cancel!",
         [{ id := 1, userId := 7, status := "processing" }]) := by
  constructor
  · exact (claimC4_cancel_pending_only { id := 7, isAdmin := false } 7 1
      [{ id := 1, userId := 7, status := "pending" }]
      { id := 1, userId := 7, status := "pending" }
      (by decide) rfl rfl).1 rfl
  · exact (claimC4_cancel_pending_only { id := 7, isAdmin := false } 7 1
      [{ id := 1, userId := 7, status := "processing" }]
      { id := 1, userId := 7, status := "processing" }
      (by decide) rfl rfl).2 (by decide)

/-! ## Review lemmas -/

/-- When the requester matches the target user and some target product
already has a review by this creator, `createReview` fails with some
400 error (which validation message depends on the rest of the request,
but the fan-out insert is never reached) and the collection is
unchanged. -/
theorem createReview_duplicate_err (r : Requester) (uid : Nat)
    (req : CreateReviewReq) (now : Nat) (db : List ReviewDoc)
    (p : Nat) (pids : List Nat)
    (hr : r.id = uid) (hpids : req.productIds = some pids) (hp : p ∈ pids)
    (hdup : ∃ rev ∈ db, rev.creator = r.id ∧ rev.product = p) :
    ∃ msg, createReview r uid req now db = (HResult.err 400 msg, db) := by
  have hrne : ¬ r.id ≠ uid := fun hc => hc hr
  have hne : ¬ pids = [] := by
    intro h0
    rw [h0] at hp
    cases hp
  have hdupb : pids.any (fun pid =>
      db.any (fun rev => rev.creator == r.id && rev.product == pid)) = true := by
    rw [List.any_eq_true]
    obtain ⟨rev, hrev, hc, hpr⟩ := hdup
    refine ⟨p, hp, ?_⟩
    rw [List.any_eq_true]
    exact ⟨rev, hrev, by simp [hc, hpr]⟩
  simp only [createReview, hpids]
  rw [if_neg hrne, if_neg hne]
  cases req.order with
  | none => exact ⟨_, rfl⟩
  | some oid =>
    cases req.rating with
    | none => exact ⟨_, rfl⟩
    | some q =>
      dsimp only
      by_cases h1 : q < 1 ∨ 5 < q
      · rw [if_pos h1]; exact ⟨_, rfl⟩
      rw [if_neg h1]
      by_cases h2 : 2000 < req.comment.length
      · rw [if_pos h2]; exact ⟨_, rfl⟩
      rw [if_neg h2]
      by_cases h3 : ¬ req.image.all (fun im => allowedExt im.ext) = true
      · rw [if_pos h3]; exact ⟨_, rfl⟩
      rw [if_neg h3]
      by_cases h4 : ¬ req.image.all (fun im => decide (im.size < maxImageBytes)) = true
      · rw [if_pos h4]; exact ⟨_, rfl⟩
      rw [if_neg h4]
      rw [if_pos hdupb]
      exact ⟨_, rfl⟩

/-- Inversion of a successful `createReview`: the requester matched the
target user, all required fields were present, and the collection after
the request is the old one extended by one review per product id. -/
theorem createReview_ok_inv {r : Requester} {uid : Nat} {req : CreateReviewReq}
    {now : Nat} {db : List ReviewDoc} {created : List ReviewDoc}
    (h : (createReview r uid req now db).1 = HResult.ok created) :
    r.id = uid ∧ ∃ pids oid q, req.productIds = some pids ∧
      req.order = some oid ∧ req.rating = some q ∧
      created = pids.map (fun pid => mkReview r.id pid oid q req.comment req.image now) ∧
      (createReview r uid req now db).2 = db ++ created := by
  by_cases h0 : r.id ≠ uid
  · simp only [createReview] at h
    rw [if_pos h0] at h
    exact HResult.noConfusion h
  simp only [createReview] at h
  rw [if_neg h0] at h
  cases hpids : req.productIds with
  | none =>
    simp only [hpids] at h
    exact HResult.noConfusion h
  | some pids =>
    simp only [hpids] at h
    by_cases h1 : pids = []
    · rw [if_pos h1] at h
      exact HResult.noConfusion h
    rw [if_neg h1] at h
    cases hord : req.order with
    | none =>
      simp only [hord] at h
      exact HResult.noConfusion h
    | some oid =>
      simp only [hord] at h
      cases hrat : req.rating with
      | none =>
        simp only [hrat] at h
        exact HResult.noConfusion h
      | some q =>
        simp only [hrat] at h
        by_cases h2 : q < 1 ∨ 5 < q
        · rw [if_pos h2] at h
          exact HResult.noConfusion h
        rw [if_neg h2] at h
        by_cases h3 : 2000 < req.comment.length
        · rw [if_pos h3] at h
          exact HResult.noConfusion h
        rw [if_neg h3] at h
        by_cases h4 : ¬ req.image.all (fun im => allowedExt im.ext) = true
        · rw [if_pos h4] at h
          exact HResult.noConfusion h
        rw [if_neg h4] at h
        by_cases h5 : ¬ req.image.all (fun im => decide (im.size < maxImageBytes)) = true
        · rw [if_pos h5] at h
          exact HResult.noConfusion h
        rw [if_neg h5] at h
        by_cases h6 : pids.any (fun pid =>
            db.any (fun rev => rev.creator == r.id && rev.product == pid)) = true
        · rw [if_pos h6] at h
          exact HResult.noConfusion h
        rw [if_neg h6] at h
        have hc : created
            = pids.map (fun pid => mkReview r.id pid oid q req.comment req.image now) :=
          (HResult.ok.inj h).symm
        refine ⟨not_not.mp h0, pids, oid, q, rfl, rfl, rfl, hc, ?_⟩
        simp only [createReview, hpids, hord, hrat]
        rw [if_neg h0, if_neg h1, if_neg h2, if_neg h3, if_neg h4, if_neg h5, if_neg h6,
          hc]

/-! ## Claim C3 -/

/-- Claim C3: whenever a review-creation request by a creator for a
product succeeds, any later review-creation request by the same creator
targeting that product fails with status 400, so at most one review per
(creator, product) pair ever arises from repeated requests. -/
theorem claimC3_duplicate_review :
    ∀ (r : Requester) (uid : Nat) (req1 req2 : CreateReviewReq) (now1 now2 : Nat)
      (db created : List ReviewDoc) (pids1 pids2 : List Nat) (p : Nat),
      r.id = uid →
      (createReview r uid req1 now1 db).1 = HResult.ok created →
      req1.productIds = some pids1 → p ∈ pids1 →
      req2.productIds = some pids2 → p ∈ pids2 →
      ∃ msg, createReview r uid req2 now2 ((createReview r uid req1 now1 db).2)
        = (HResult.err 400 msg, (createReview r uid req1 now1 db).2) := by
  intro r uid req1 req2 now1 now2 db created pids1 pids2 p hr h1 hpids1 hp1 hpids2 hp2
  obtain ⟨-, pids1', oid, q, hpids1', -, -, hc, hsnd⟩ := createReview_ok_inv h1
  have hpe : pids1' = pids1 := by
    rw [hpids1] at hpids1'
    exact (Option.some.inj hpids1').symm
  subst hpe
  have hdup : ∃ rev ∈ (createReview r uid req1 now1 db).2,
      rev.creator = r.id ∧ rev.product = p := by
    rw [hsnd]
    refine ⟨mkReview r.id p oid q req1.comment req1.image now1, ?_, rfl, rfl⟩
    apply List.mem_append_right
    rw [hc]
    exact List.mem_map_of_mem _ hp1
  exact createReview_duplicate_err r uid req2 now2 _ p pids2 hr hpids2 hp2 hdup

/-- The review created by the first request of the witness scenario. -/
def firstReviewReq : CreateReviewReq :=
  { productIds := some [5], order := some 11, rating := some 4
    comment := "First review", image := [] }

/-- The duplicate-targeting second request of the witness scenario. -/
def secondReviewReq : CreateReviewReq :=
  { productIds := some [5], order := some 12, rating := some 5
    comment := "Second review", image := [] }

/-- The reviewer of the witness scenarios (test user, admin flag set as
in the review test suite). -/
def reviewer : Requester := { id := 7, isAdmin := true }

/-- Concrete witness for claim C3: after a successful review of product 5
(test #TC036's first request), the second request for the same product
by the same creator fails with a 400 error and changes nothing. -/
theorem claimC3_duplicate_review_witness :
    ∃ msg, createReview reviewer 7 secondReviewReq 20
        ((createReview reviewer 7 firstReviewReq 10 []).2)
      = (HResult.err 400 msg, (createReview reviewer 7 firstReviewReq 10 []).2) :=
  claimC3_duplicate_review reviewer 7 firstReviewReq secondReviewReq 10 20 []
    [mkReview 7 5 11 4 "First review" [] 10] [5] [5] 5 rfl (by decide) rfl
    (by decide) rfl (by decide)

/-! ## Claim C5 -/

/-- Claim C5: an edit request on a review created longer than the fixed
48-hour window ago fails with status 403 and the "cannot edit reviews
older than" message, for any requester that is the owner or an admin
(the roles that pass the preceding permission check), and the
collection is unchanged. -/
theorem claimC5_edit_window :
    ∀ (r : Requester) (rid : Nat) (req : EditReviewReq) (now : Nat)
      (db : List ReviewDoc) (rev : ReviewDoc),
      db.find? (fun x => x.id == rid) = some rev →
      (r.isAdmin = true ∨ r.id = rev.creator) →
      rev.createdAt + editWindowMs < now →
      editReview r rid req now db
        = (HResult.err 403 "You cannot edit reviews older than 48 hours", db) := by
  intro r rid req now db rev hfind hrole hold
  have hperm : ¬ (r.id ≠ rev.creator ∧ r.isAdmin = false) := by
    rcases hrole with ha | ho
    · rintro ⟨-, hf⟩
      rw [ha] at hf
      cases hf
    · rintro ⟨hne, -⟩
      exact hne ho
  simp only [editReview, hfind]
  rw [if_neg hperm, if_pos hold]

/-- A three-day-old review by creator 7 (test #TC040's setup, relative to
`now = 3 * 24` hours in milliseconds). -/
def staleReview : ReviewDoc :=
  { id := 3, creator := 7, product := 5, order := 11, rating := 3
    comment := "Original comment", image := [], reply := [], createdAt := 0 }

/-- Concrete witness for claim C5: an owner-and-admin requester editing a
3-day-old review is rejected with 403 and the window message. -/
theorem claimC5_edit_window_witness :
    editReview reviewer 3 { rating := none, comment := some "Attempted late update" }
        (3 * 24 * 60 * 60 * 1000) [staleReview]
      = (HResult.err 403 "You cannot edit reviews older than 48 hours", [staleReview]) :=
  claimC5_edit_window reviewer 3
    { rating := none, comment := some "Attempted late update" }
    (3 * 24 * 60 * 60 * 1000) [staleReview] staleReview (by decide) (Or.inl rfl)
    (by decide)

/-! ## Claim C7 -/

/-- Claim C7: a reply request from a non-admin fails with status 401 and
changes nothing; and every successful admin reply leaves the review
with exactly one current reply, whose text is that of this (most
recent) request — both in the response and for every stored review with
the target id. -/
theorem claimC7_reply_replaces :
    ∀ (r : Requester) (rid : Nat) (text : Option String) (db : List ReviewDoc),
      (r.isAdmin = false →
        replyReview r rid text db
          = (HResult.err 401 "You are not allowed to reply this review", db))
      ∧ (∀ t o, text = some t → (replyReview r rid text db).1 = HResult.ok o →
          o.reply = [{ text := t }]
          ∧ ∀ y ∈ (replyReview r rid text db).2, y.id = rid →
              y.reply = [{ text := t }]) := by
  intro r rid text db
  constructor
  · intro hna
    simp only [replyReview]
    rw [if_pos hna]
  · intro t o htext h
    by_cases hA : r.isAdmin = false
    · simp only [replyReview] at h
      rw [if_pos hA] at h
      exact HResult.noConfusion h
    simp only [replyReview] at h
    rw [if_neg hA] at h
    cases hfind : db.find? (fun rev => rev.id == rid) with
    | none =>
      simp only [hfind] at h
      exact HResult.noConfusion h
    | some rev =>
      simp only [hfind, htext] at h
      by_cases hlen : 1000 < t.length
      · rw [if_pos hlen] at h
        exact HResult.noConfusion h
      rw [if_neg hlen] at h
      have ho : o = { rev with reply := [{ text := t }] } := (HResult.ok.inj h).symm
      have h2 : (replyReview r rid text db).2
          = db.map (fun x => if x.id == rid then { rev with reply := [{ text := t }] }
              else x) := by
        simp only [replyReview, hfind, htext]
        rw [if_neg hA, if_neg hlen]
      refine ⟨by rw [ho], ?_⟩
      intro y hy hyid
      rw [h2] at hy
      obtain ⟨x, hx, hxy⟩ := List.mem_map.mp hy
      by_cases hxid : (x.id == rid) = true
      · rw [if_pos hxid] at hxy
        rw [← hxy]
      · rw [if_neg hxid] at hxy
        exfalso
        rw [← hxy] at hyid
        exact hxid (by simp [hyid])

/-- Concrete witness for claim C7: a non-admin reply on the stored review
is rejected with 401 (test #TC010), and a successful admin reply's
response carries exactly the single new reply (test #TC041). -/
theorem claimC7_reply_replaces_witness :
    replyReview { id := 9, isAdmin := false } 3 (some "Nice") [staleReview]
      = (HResult.err 401 "You are not allowed to reply this review", [staleReview])
    ∧ ({ staleReview with reply := [{ text := "Thanks for your feedback!" }] } : ReviewDoc).reply
        = [{ text := "Thanks for your feedback!" }] := by
  constructor
  · exact (claimC7_reply_replaces { id := 9, isAdmin := false } 3 (some "Nice")
      [staleReview]).1 rfl
  · exact ((claimC7_reply_replaces { id := 8, isAdmin := true } 3
      (some "Thanks for your feedback!") [staleReview]).2
      "Thanks for your feedback!"
      { staleReview with reply := [{ text := "Thanks for your feedback!" }] }
      rfl (by decide)).1

/-! ## Claim C6 -/

/-- Claim C6 (code evaluation): the pagination parameters of `getAllUsers`
default to page 1 and limit 10 when absent, but a negative supplied page
is NOT clamped — `parseInt("-1") || 1` keeps the truthy value `-1`, so
the reported `currentPage` for `page=-1` would be `-1`, contrary to the
claim and to test #TC004. -/
theorem claimC6_pagination_no_clamp :
    getAllUsersPage none = 1 ∧ getAllUsersLimit none = 10
    ∧ getAllUsersPage (some (-1)) = -1
    ∧ ¬ 1 ≤ getAllUsersPage (some (-1)) := by decide

/-! ## Claim C8 -/

/-- Overwrite the stored password hash of a user by an arbitrary
function of the document. -/
def setPw (f : UserDoc → String) (u : UserDoc) : UserDoc :=
  { u with password := f u }

/-- `getAllUsers` cannot observe stored passwords. -/
theorem getAllUsers_setPw (r : Requester) (pq lq : Option Int) (w m : Nat)
    (db : List UserDoc) (f : UserDoc → String) :
    getAllUsers r pq lq w m (db.map (setPw f)) = getAllUsers r pq lq w m db := by
  unfold getAllUsers
  simp only [← List.map_drop, ← List.map_take, List.map_map, List.length_map,
    List.filter_map, List.map_eq_nil_iff]
  rfl

/-- `getUser` cannot observe stored passwords. -/
theorem getUser_setPw (uid : Nat) (db : List UserDoc) (f : UserDoc → String) :
    getUser uid (db.map (setPw f)) = getUser uid db := by
  unfold getUser
  rw [List.find?_map]
  have hp : ((fun u : UserDoc => u.id == uid) ∘ setPw f)
      = fun u : UserDoc => u.id == uid := rfl
  rw [hp]
  cases db.find? (fun u : UserDoc => u.id == uid) <;> rfl

/-- `searchUser` cannot observe stored passwords. -/
theorem searchUser_setPw (r : Requester) (sq : Option String)
    (db : List UserDoc) (f : UserDoc → String) :
    searchUser r sq (db.map (setPw f)) = searchUser r sq db := by
  unfold searchUser
  simp only [List.filter_map, List.map_eq_nil_iff, List.map_map]
  rfl

/-- Claim C8: the stored password (hash) has no influence on any response
of `getAllUsers`, `getUser` or `searchUser`: arbitrarily rewriting every
user's password leaves all three responses unchanged, so no response
ever contains password data. -/
theorem claimC8_password_noninterference :
    ∀ (f : UserDoc → String) (db : List UserDoc),
      (∀ (r : Requester) (pq lq : Option Int) (w m : Nat),
        getAllUsers r pq lq w m (db.map (setPw f)) = getAllUsers r pq lq w m db)
      ∧ (∀ uid, getUser uid (db.map (setPw f)) = getUser uid db)
      ∧ (∀ (r : Requester) (sq : Option String),
        searchUser r sq (db.map (setPw f)) = searchUser r sq db) := by
  intro f db
  exact ⟨fun r pq lq w m => getAllUsers_setPw r pq lq w m db f,
    fun uid => getUser_setPw uid db f,
    fun r sq => searchUser_setPw r sq db f⟩

/-! ## Claim C9 -/

/-- Claim C9: `updateUser` and `deleteUser` grant no admin override —
whenever the requester's id differs from the target `userId`, both
requests fail with status 401 and leave the user collection unchanged,
whatever the requester's `isAdmin` flag. -/
theorem claimC9_no_admin_override :
    ∀ (r : Requester) (uid : Nat) (body : UpdateBody) (db : List UserDoc),
      r.id ≠ uid →
      updateUser r uid body db
        = (HResult.err 401 "You don\x27t have permission to do this action", db)
      ∧ deleteUser r uid db
        = (HResult.err 401 "You dont have permission to do this action", db) := by
  intro r uid body db h
  constructor
  · unfold updateUser
    rw [if_pos h]
  · unfold deleteUser
    rw [if_pos h]

/-- An update body with no field provided. -/
def emptyUpdateBody : UpdateBody :=
  { username := none, email := none, password := none, gender := none
    phoneNumber := none, dateOfBirth := none, addressList := none
    profilePic := none }

/-- Concrete witness for claim C9: an admin requester (id 1) targeting
user 2 is rejected with 401 by both handlers (test #TC011 and #TC017). -/
theorem claimC9_no_admin_override_witness :
    updateUser { id := 1, isAdmin := true } 2 emptyUpdateBody []
      = (HResult.err 401 "You don\x27t have permission to do this action", [])
    ∧ deleteUser { id := 1, isAdmin := true } 2 []
      = (HResult.err 401 "You dont have permission to do this action", []) :=
  claimC9_no_admin_override { id := 1, isAdmin := true } 2 emptyUpdateBody []
    (by decide)

/-! ## Claim C10 -/

/-- Claim C10: a `deleteUser` request by the target user itself answers
200 "User deleted successfully" even when no user with that id exists —
deleting a non-existent user is not reported as a 404, and the
collection is unchanged. -/
theorem claimC10_delete_nonexistent :
    ∀ (r : Requester) (uid : Nat) (db : List UserDoc),
      r.id = uid → db.find? (fun u => u.id == uid) = none →
      deleteUser r uid db = (HResult.ok "User deleted successfully", db) := by
  intro r uid db hr hnone
  unfold deleteUser
  rw [if_neg (fun hc => hc hr)]
  have hkeep : db.filter (fun u => !(u.id == uid)) = db := by
    rw [List.filter_eq_self]
    intro a ha
    have hne := List.find?_eq_none.mp hnone a ha
    simpa using hne
  rw [hkeep]

/-- Concrete witness for claim C10: requester 42 deleting the absent user
42 from an empty collection gets 200 "User deleted successfully" (test
#TC018). -/
theorem claimC10_delete_nonexistent_witness :
    deleteUser { id := 42, isAdmin := false } 42 []
      = (HResult.ok "User deleted successfully", []) :=
  claimC10_delete_nonexistent { id := 42, isAdmin := false } 42 [] rfl rfl
